import Mathlib

/-!
# video-worker: the HTTP relay of `src/index.js`

A shallow embedding of the three Express handlers (`GET /health`,
`POST /generate`, `GET /status`), of the lazily memoized client `getAI` and of
the `styleMap` preset table, followed by the properties proved about them.

Modelling conventions
* A handler is a function from the process environment, the upstream provider,
  the module state (the `ai` variable) and the request to an `Outcome`: the
  module state afterwards, the trace of client constructions and upstream calls
  it performed, and the HTTP response it sent.
* `try { ... } catch (err) { ... }` is split in two: `generateTry` / `statusTry`
  is the body of the `try`, returning either the response it sent or the error
  it threw; `generate` / `status` adds the `catch` block.
* Strings are Lean strings.  The handlers only compare and concatenate them,
  except for `substring(0, 300)` on the JSON dump of an operation, which counts
  UTF-16 code units; the dump is therefore kept as a list of code units.
* `console.log` / `console.error` write no response and change no state; the
  conversions to string their arguments perform are kept, because they can
  throw.
-/

namespace VideoWorker

/-! ## JavaScript values -/

/-- A thrown JavaScript `Error`; the handlers read nothing but its `message`. -/
structure JSError where
  message : String
deriving DecidableEq, Repr

/-- A value produced by `JSON.parse`, as found in `req.body`.  A number is kept
as the text `Number.prototype.toString` renders it to (so zero is `"0"`). -/
inductive Json where
  | null
  | bool (b : Bool)
  | num (text : String)
  | str (s : String)
  | arr (items : List Json)
  | obj (fields : List (String × Json))

/-- JavaScript truthiness (`ToBoolean`) of a parsed JSON value. -/
def Json.truthy : Json → Bool
  | .null => false
  | .bool b => b
  | .num text => text != "0"
  | .str s => s != ""
  | .arr _ => true
  | .obj _ => true

/-- The `TypeError` of `OrdinaryToPrimitive` when neither `toString` nor
`valueOf` yields a primitive (V8 wording). -/
def cannotConvert : JSError := ⟨"Cannot convert object to primitive value"⟩

mutual
/-- JavaScript `ToString` on a parsed JSON value, also what `ToPropertyKey`
computes for it.  An array goes through `Array.prototype.join`; a plain object
gives `"[object Object]"` unless an own `toString` property (never callable in
parsed JSON) shadows `Object.prototype.toString`, in which case the conversion
throws. -/
def Json.toStr : Json → Except JSError String
  | .null => .ok "null"
  | .bool b => .ok (if b then "true" else "false")
  | .num text => .ok text
  | .str s => .ok s
  | .arr items => Json.join items
  | .obj fields =>
    if (fields.map Prod.fst).contains "toString" then .error cannotConvert
    else .ok "[object Object]"
/-- The method `Array.prototype.join` with the default separator `","`. -/
def Json.join : List Json → Except JSError String
  | [] => .ok ""
  | [x] => Json.element x
  | x :: y :: rest =>
    match Json.element x with
    | .error e => .error e
    | .ok s =>
      match Json.join (y :: rest) with
      | .error e => .error e
      | .ok t => .ok (s ++ "," ++ t)
/-- One element inside `join`: `null` contributes the empty string. -/
def Json.element : Json → Except JSError String
  | .null => .ok ""
  | .bool b => .ok (if b then "true" else "false")
  | .num text => .ok text
  | .str s => .ok s
  | .arr items => Json.join items
  | .obj fields =>
    if (fields.map Prod.fst).contains "toString" then .error cannotConvert
    else .ok "[object Object]"
end

/-- A value of `req.query` as the query-string parser builds it: a string, an
array or a plain object (`?op[name]=a` gives an object).  The parser may keep a
key that shadows a member of `Object.prototype`, such as `toString`. -/
inductive QueryValue where
  | str (s : String)
  | arr (items : List QueryValue)
  | obj (fields : List (String × QueryValue))

mutual
/-- JavaScript `ToString` on a query value: an array goes through
`Array.prototype.join`; a plain object gives `"[object Object]"` unless an own
`toString` property (a string, array or object, never callable) shadows
`Object.prototype.toString`, in which case the conversion throws. -/
def QueryValue.toStr : QueryValue → Except JSError String
  | .str s => .ok s
  | .arr items => QueryValue.join items
  | .obj fields =>
    if (fields.map Prod.fst).contains "toString" then .error cannotConvert
    else .ok "[object Object]"
/-- The method `Array.prototype.join` with the default separator `","`, on the
items of an array of query values. -/
def QueryValue.join : List QueryValue → Except JSError String
  | [] => .ok ""
  | [x] => QueryValue.toStr x
  | x :: y :: rest =>
    match QueryValue.toStr x with
    | .error e => .error e
    | .ok s =>
      match QueryValue.join (y :: rest) with
      | .error e => .error e
      | .ok t => .ok (s ++ "," ++ t)
end

/-- JavaScript truthiness of a query value. -/
def QueryValue.truthy : QueryValue → Bool
  | .str s => s != ""
  | .arr _ => true
  | .obj _ => true

/-- A value placed in a response body. -/
inductive Value where
  | undefined
  | null
  | str (s : String)
  | utf16 (units : List Nat)
deriving DecidableEq, Repr

/-- The expression `x || fallback` for a string `x` that may be `undefined`. -/
def orElse (x : Option String) (fallback : String) : String :=
  match x with
  | some s => if s != "" then s else fallback
  | none => fallback

/-! ## The preset table (lines 24-30) -/

/-- The own properties of `styleMap`. -/
def styleMap : List (String × String) :=
  [ ("cinematico", "cinematic look, shallow depth of field, film grain, anamorphic lens"),
    ("documentary", "documentary style, natural lighting, handheld camera, authentic feel"),
    ("commercial", "commercial production quality, clean lighting, polished look, vibrant colors"),
    ("artistico", "artistic cinematography, creative angles, dramatic lighting, visual poetry") ]

/-- The methods `styleMap` inherits from `Object.prototype` under their own
name (`constructor` and `__proto__` are handled apart). -/
def objectPrototypeMethods : List String :=
  [ "__defineGetter__", "__defineSetter__", "hasOwnProperty", "__lookupGetter__",
    "__lookupSetter__", "isPrototypeOf", "propertyIsEnumerable", "toString",
    "valueOf", "toLocaleString" ]

/-- What a property read on `styleMap` can yield. -/
inductive PropValue where
  | undefined
  | string (s : String)
  | builtinFunction (name : String)
  | objectPrototype
deriving DecidableEq, Repr

/-- The property read `styleMap[key]`: own properties first, then the
prototype chain of an object literal, i.e. `Object.prototype`. -/
def styleMapGet (key : String) : PropValue :=
  match styleMap.lookup key with
  | some hint => .string hint
  | none =>
    if key = "constructor" then .builtinFunction "Object"
    else if key = "__proto__" then .objectPrototype
    else if objectPrototypeMethods.contains key then .builtinFunction key
    else .undefined

/-- Truthiness of a value read from `styleMap`. -/
def PropValue.truthy : PropValue → Bool
  | .undefined => false
  | .string s => s != ""
  | .builtinFunction _ => true
  | .objectPrototype => true

/-- Conversion of a truthy value read from `styleMap` inside a template
literal: a built-in function prints as V8 prints native code. -/
def PropValue.toStr : PropValue → String
  | .undefined => "undefined"
  | .string s => s
  | .builtinFunction name => "function " ++ name ++ "() \x7b [native code] \x7d"
  | .objectPrototype => "[object Object]"

/-- Line 46: `styleMap[style] || styleMap.cinematico`, for the property key
`style` converts to. -/
def styleHint (key : String) : PropValue :=
  if (styleMapGet key).truthy then styleMapGet key else styleMapGet "cinematico"

/-! ## The upstream provider and the memoized client (lines 13-22) -/

/-- The process environment, as far as the handlers read it. -/
structure Env where
  GEMINI_API_KEY : Option String

/-- A client handle built by `new GoogleGenAI({ apiKey })`. -/
structure GoogleGenAI where
  apiKey : String
deriving DecidableEq, Repr

/-- The module-level variable `ai`. -/
structure State where
  ai : Option GoogleGenAI
deriving DecidableEq, Repr

/-- The `video` member of a generated video. -/
structure Video where
  uri : Option String
deriving DecidableEq, Repr

/-- One entry of `generatedVideos`. -/
structure GeneratedVideo where
  video : Option Video
deriving DecidableEq, Repr

/-- The `response` member of a finished operation; a `none` entry of the list is
a `null` entry. -/
structure GenerateVideosResponse where
  generatedVideos : Option (List (Option GeneratedVideo))
deriving DecidableEq, Repr

/-- The `error` member of a finished operation. -/
structure OperationError where
  message : Option String
deriving DecidableEq, Repr

/-- The long-running operation object the upstream client returns, with the
members the handlers read; `json` is the text `JSON.stringify` gives for it, in
UTF-16 code units. -/
structure Operation where
  name : Option String
  done : Option Bool
  response : Option GenerateVideosResponse
  error : Option OperationError
  json : List Nat
deriving DecidableEq, Repr

/-- The argument of `models.generateVideos` (lines 51-58). -/
structure GenerateVideosParams where
  model : String
  prompt : String
  aspectRatio : Json
  numberOfVideos : Nat

/-- The upstream provider: what each of the two awaited calls resolves to, or
the error it rejects with. -/
structure Upstream where
  generateVideos : GoogleGenAI → GenerateVideosParams → Except JSError Operation
  operationsGet : GoogleGenAI → QueryValue → Except JSError Operation

/-- What a handler does besides answering: build a client, call upstream. -/
inductive Event where
  | construct (apiKey : String)
  | generateVideos (client : GoogleGenAI) (params : GenerateVideosParams)
  | operationsGet (client : GoogleGenAI) (operation : QueryValue)

/-- The function `getAI`: the memoized handle if there is one, otherwise a new
one from the credential, or the configuration error. -/
def getAI (env : Env) (st : State) : Except JSError (GoogleGenAI × State × List Event) :=
  match st.ai with
  | some client => .ok (client, st, [])
  | none =>
    match env.GEMINI_API_KEY with
    | none => .error ⟨"GEMINI_API_KEY non configurata"⟩
    | some key =>
      if key = "" then .error ⟨"GEMINI_API_KEY non configurata"⟩
      else .ok (⟨key⟩, ⟨some ⟨key⟩⟩, [.construct key])

/-! ## Responses -/

/-- An HTTP response: status code and the object handed to `res.json`. -/
structure Response where
  status : Nat
  body : List (String × Value)
deriving DecidableEq, Repr

/-- The run of a `try` block: state and trace so far, and the response sent or
the error thrown. -/
structure Attempt where
  state : State
  trace : List Event
  result : Except JSError Response

/-- The run of a handler. -/
structure Outcome where
  state : State
  trace : List Event
  response : Response

/-- The `catch` block of both handlers: `res.status(500).json({ error:
err.message || fallback })`. -/
def catchError (fallback : String) (a : Attempt) : Outcome :=
  match a.result with
  | .ok response => ⟨a.state, a.trace, response⟩
  | .error err => ⟨a.state, a.trace, ⟨500, [("error", .str (orElse (some err.message) fallback))]⟩⟩

/-- Lines 33-35: `GET /health`; `now` is `new Date().toISOString()`. -/
def health (st : State) (now : String) : Outcome :=
  ⟨st, [], ⟨200, [("status", .str "ok"), ("service", .str "video-worker"), ("timestamp", .str now)]⟩⟩

/-! ## `POST /generate` (lines 38-68) -/

/-- The `TypeError` of line 49 when `prompt` is truthy but no string: the
member `substring` is then missing or not callable (V8 wording). -/
def notAFunction : JSError := ⟨"prompt.substring is not a function"⟩

/-- Lines 46-49 for a truthy `prompt`: the property key `style` converts to,
the hint, the template literal `fullPrompt`, and the conversions of the log
line.  Returns `fullPrompt`, or the `TypeError` thrown on the way. -/
def fullPrompt (prompt style aspectRatio : Json) : Except JSError String :=
  match style.toStr with
  | .error e => .error e
  | .ok key =>
    match prompt.toStr with
    | .error e => .error e
    | .ok p =>
      match prompt with
      | .str _ =>
        match aspectRatio.toStr with
        | .error e => .error e
        | .ok _ => .ok (p ++ ". Style: " ++ (styleHint key).toStr)
      | _ => .error notAFunction

/-- The object literal of lines 51-58. -/
def generateParams (prompt : String) (aspectRatio : Json) : GenerateVideosParams :=
  { model := "veo-3.1-generate-preview", prompt := prompt, aspectRatio := aspectRatio,
    numberOfVideos := 1 }

/-- A string member that may be `undefined`, as a response value. -/
def Value.ofOption : Option String → Value
  | some s => .str s
  | none => .undefined

/-- Line 51: `await getAI().models.generateVideos(params)`, with the state and
trace it leaves behind. -/
def callGenerateVideos (env : Env) (up : Upstream) (st : State) (params : GenerateVideosParams) :
    State × List Event × Except JSError Operation :=
  match getAI env st with
  | .error e => (st, [], .error e)
  | .ok (client, st1, built) =>
    (st1, built ++ [.generateVideos client params], up.generateVideos client params)

/-- The `try` block of `POST /generate`; `body` holds the own properties of
`req.body`, so a key that is not in it reads as `undefined` and takes the
default of the destructuring pattern. -/
def generateTry (env : Env) (up : Upstream) (st : State) (body : List (String × Json)) : Attempt :=
  let style := (body.lookup "style").getD (.str "cinematico")
  let aspectRatio := (body.lookup "aspectRatio").getD (.str "16:9")
  match body.lookup "prompt" with
  | none => ⟨st, [], .ok ⟨400, [("error", .str "Prompt richiesto")]⟩⟩
  | some prompt =>
    if !prompt.truthy then ⟨st, [], .ok ⟨400, [("error", .str "Prompt richiesto")]⟩⟩
    else
      match fullPrompt prompt style aspectRatio with
      | .error e => ⟨st, [], .error e⟩
      | .ok full =>
        match callGenerateVideos env up st (generateParams full aspectRatio) with
        | (st1, trace, .error e) => ⟨st1, trace, .error e⟩
        | (st1, trace, .ok operation) =>
          ⟨st1, trace, .ok ⟨200, [("operationName", Value.ofOption operation.name),
                                   ("status", .str "processing")]⟩⟩

/-- The handler of `POST /generate`. -/
def generate (env : Env) (up : Upstream) (st : State) (body : List (String × Json)) : Outcome :=
  catchError "Errore generazione video" (generateTry env up st body)

/-! ## `GET /status` (lines 71-113) -/

/-- The `TypeError` of line 90 when the first generated video is `null` (V8
wording). -/
def cannotReadVideo : JSError := ⟨"Cannot read properties of null (reading 'video')"⟩

/-- Lines 88-94: the URI the handler answers with, `none` when control falls
through to line 96, or the `TypeError` of reading `video` off a `null` entry. -/
def videoUri (operation : Operation) : Except JSError (Option String) :=
  match operation.response with
  | none => .ok none
  | some result =>
    match result.generatedVideos with
    | none => .ok none
    | some [] => .ok none
    | some (none :: _) => .error cannotReadVideo
    | some (some first :: _) =>
      match first.video with
      | none => .ok none
      | some video =>
        match video.uri with
        | none => .ok none
        | some uri => if uri != "" then .ok (some uri) else .ok none

/-- Line 79: `await getAI().operations.get({ operation: operationName })`, with
the state and trace it leaves behind. -/
def callOperationsGet (env : Env) (up : Upstream) (st : State) (operationName : QueryValue) :
    State × List Event × Except JSError Operation :=
  match getAI env st with
  | .error e => (st, [], .error e)
  | .ok (client, st1, built) =>
    (st1, built ++ [.operationsGet client operationName], up.operationsGet client operationName)

/-- Lines 81-108: the answer for the operation the upstream returned.  On the
path of a ready video, line 91 first converts `operationName` to a string for
the log line, which can throw. -/
def statusOf (operationName : QueryValue) (operation : Operation) : Except JSError Response :=
  if !(operation.done.getD false) then .ok ⟨200, [("status", .str "processing")]⟩
  else
    match videoUri operation with
    | .error e => .error e
    | .ok (some uri) =>
      match operationName.toStr with
      | .error e => .error e
      | .ok _ => .ok ⟨200, [("status", .str "done"), ("videoUrl", .str uri)]⟩
    | .ok none =>
      match operation.error with
      | some err =>
        .ok ⟨200, [("status", .str "error"),
                   ("error", .str (orElse err.message "Errore nella generazione"))]⟩
      | none =>
        .ok ⟨200, [("status", .str "done"), ("videoUrl", .null),
                   ("raw", .utf16 (operation.json.take 300))]⟩

/-- The `try` block of `GET /status`; `op` is `req.query.op`, `none` when the
query has no such parameter. -/
def statusTry (env : Env) (up : Upstream) (st : State) (op : Option QueryValue) : Attempt :=
  match op with
  | none => ⟨st, [], .ok ⟨400, [("error", .str "operationName richiesto (param: op)")]⟩⟩
  | some operationName =>
    if !operationName.truthy then
      ⟨st, [], .ok ⟨400, [("error", .str "operationName richiesto (param: op)")]⟩⟩
    else
      match callOperationsGet env up st operationName with
      | (st1, trace, .error e) => ⟨st1, trace, .error e⟩
      | (st1, trace, .ok operation) => ⟨st1, trace, statusOf operationName operation⟩

/-- The handler of `GET /status`. -/
def status (env : Env) (up : Upstream) (st : State) (op : Option QueryValue) : Outcome :=
  catchError "Errore verifica stato" (statusTry env up st op)

/-! ## Sample inputs -/

/-- The UTF-16 code units of a string: one unit for a character of the basic
plane, a surrogate pair for any other. -/
def codeUnits (s : String) : List Nat :=
  s.toList.flatMap fun c =>
    if c.toNat < 65536 then [c.toNat]
    else [55296 + (c.toNat - 65536) / 1024, 56320 + (c.toNat - 65536) % 1024]


/-- An upstream that accepts every job and names the operation `"operations/1"`. -/
def upOk : Upstream :=
  { generateVideos := fun _ _ =>
      .ok ⟨some "operations/1", none, none, none, codeUnits "\x7b\"name\":\"operations/1\"\x7d"⟩,
    operationsGet := fun _ _ =>
      .ok ⟨some "operations/1", none, none, none, codeUnits "\x7b\"name\":\"operations/1\"\x7d"⟩ }

/-- An upstream whose poll answers with a given operation. -/
def upWith (operation : Operation) : Upstream :=
  { generateVideos := fun _ _ => .ok operation, operationsGet := fun _ _ => .ok operation }

/-- An upstream whose calls both reject with a given error. -/
def upFail (e : JSError) : Upstream :=
  { generateVideos := fun _ _ => .error e, operationsGet := fun _ _ => .error e }

/-- An environment with the credential `"k"`. -/
def envKey : Env := ⟨some "k"⟩

/-- An environment without the credential. -/
def envNone : Env := ⟨none⟩

/-- A finished operation that carries both an error and a generated video. -/
def opErrorAndVideo : Operation :=
  { name := some "operations/1", done := some true,
    response := some ⟨some [some ⟨some ⟨some "https://video/1"⟩⟩]⟩,
    error := some ⟨some "quota exceeded"⟩,
    json := codeUnits ("\x7b\"name\":\"operations/1\",\"done\":true,\"response\":\x7b\"generatedVideos\":"
      ++ "[\x7b\"video\":\x7b\"uri\":\"https://video/1\"\x7d\x7d]\x7d,"
      ++ "\"error\":\x7b\"message\":\"quota exceeded\"\x7d\x7d") }

/-- A finished operation that carries an error and no video. -/
def opError : Operation :=
  { name := some "operations/1", done := some true, response := none,
    error := some ⟨some "quota exceeded"⟩,
    json := codeUnits ("\x7b\"name\":\"operations/1\",\"done\":true,"
      ++ "\"error\":\x7b\"message\":\"quota exceeded\"\x7d\x7d") }

/-- A finished operation with two generated videos. -/
def opTwoVideos : Operation :=
  { name := some "operations/1", done := some true,
    response := some ⟨some [some ⟨some ⟨some "https://video/1"⟩⟩, some ⟨some ⟨some "https://video/2"⟩⟩]⟩,
    error := none,
    json := codeUnits ("\x7b\"name\":\"operations/1\",\"done\":true,\"response\":\x7b\"generatedVideos\":"
      ++ "[\x7b\"video\":\x7b\"uri\":\"https://video/1\"\x7d\x7d,"
      ++ "\x7b\"video\":\x7b\"uri\":\"https://video/2\"\x7d\x7d]\x7d\x7d") }

/-- A finished operation with neither video nor error. -/
def opEmpty : Operation :=
  { name := none, done := some true, response := none, error := none,
    json := codeUnits "\x7b\"done\":true\x7d" }

/-- An operation still running, although it already carries a video and an
error. -/
def opRunning : Operation :=
  { name := some "operations/1", done := some false,
    response := some ⟨some [some ⟨some ⟨some "https://video/1"⟩⟩]⟩,
    error := some ⟨some "quota exceeded"⟩,
    json := codeUnits ("\x7b\"name\":\"operations/1\",\"done\":false,\"response\":\x7b\"generatedVideos\":"
      ++ "[\x7b\"video\":\x7b\"uri\":\"https://video/1\"\x7d\x7d]\x7d,"
      ++ "\"error\":\x7b\"message\":\"quota exceeded\"\x7d\x7d") }

/-- A finished operation whose first generated video is `null`. -/
def opNullVideo : Operation :=
  { name := none, done := some true, response := some ⟨some [none]⟩, error := none,
    json := codeUnits "\x7b\"done\":true,\"response\":\x7b\"generatedVideos\":[null]\x7d\x7d" }

/-! ## Basic facts -/

theorem orElse_some_of_ne (s fallback : String) (h : s ≠ "") : orElse (some s) fallback = s := by
  simp [orElse, h]

/-- A key that is neither an own property of `styleMap` nor a member of
`Object.prototype` resolves to the `cinematico` hint. -/
theorem styleHint_unknown (key : String) (h1 : styleMap.lookup key = none)
    (h2 : key ≠ "constructor") (h3 : key ≠ "__proto__")
    (h4 : objectPrototypeMethods.contains key = false) :
    styleHint key
      = .string "cinematic look, shallow depth of field, film grain, anamorphic lens" := by
  have hget : styleMapGet key = .undefined := by
    simp only [styleMapGet, h1, h2, h3, h4, if_false, Bool.false_eq_true]
  simp only [styleHint, hget, PropValue.truthy, Bool.false_eq_true, if_false]
  decide

/-- A client construction is all `getAI` ever records, and at most one. -/
theorem getAI_trace (env : Env) (st : State) (client : GoogleGenAI) (st1 : State)
    (built : List Event) (h : getAI env st = .ok (client, st1, built)) :
    st1.ai = some client ∧ (built = [] ∨ built = [.construct client.apiKey]) := by
  unfold getAI at h
  split at h
  · rename_i c hc
    simp only [Except.ok.injEq, Prod.mk.injEq] at h
    obtain ⟨h1, h2, h3⟩ := h
    subst h1 h2 h3
    exact ⟨hc, Or.inl rfl⟩
  · split at h
    · simp at h
    · split at h
      · simp at h
      · simp only [Except.ok.injEq, Prod.mk.injEq] at h
        obtain ⟨h1, h2, h3⟩ := h
        subst h1 h2 h3
        exact ⟨rfl, Or.inr rfl⟩

theorem toStr_str (s : String) : (Json.str s).toStr = .ok s := by
  rw [Json.toStr]

/-- A string prompt converts to itself, so `fullPrompt` is the concatenation as
soon as `style` and `aspectRatio` convert. -/
theorem fullPrompt_str (p : String) (style aspectRatio : Json) (key a : String)
    (hs : style.toStr = .ok key) (ha : aspectRatio.toStr = .ok a) :
    fullPrompt (.str p) style aspectRatio = .ok (p ++ ". Style: " ++ (styleHint key).toStr) := by
  simp only [fullPrompt, hs, ha, toStr_str]

/-- The poll of a truthy `op` for which a client is at hand and the upstream
answers with `operation`. -/
theorem status_of_poll (env : Env) (up : Upstream) (st : State) (q : QueryValue)
    (client : GoogleGenAI) (st1 : State) (built : List Event) (operation : Operation)
    (hq : q.truthy = true) (hai : getAI env st = .ok (client, st1, built))
    (hup : up.operationsGet client q = .ok operation) :
    status env up st (some q)
      = catchError "Errore verifica stato"
          ⟨st1, built ++ [.operationsGet client q], statusOf q operation⟩ := by
  simp [status, statusTry, callOperationsGet, hq, hai, hup]

/-- The generated-video lookup of lines 88-94 finds nothing exactly when the
response, the list, the first entry's `video` or its `uri` is missing or empty;
it throws exactly on a `null` first entry. -/
theorem videoUri_none_iff (operation : Operation) :
    videoUri operation = .ok none ↔
      (operation.response = none ∨
       ∃ result, operation.response = some result ∧
         (result.generatedVideos = none ∨ result.generatedVideos = some [] ∨
          ∃ first rest, result.generatedVideos = some (some first :: rest) ∧
            (first.video = none ∨ first.video = some ⟨none⟩ ∨ first.video = some ⟨some ""⟩))) := by
  obtain ⟨name, done, response, error, json⟩ := operation
  cases response with
  | none => simp [videoUri]
  | some result =>
    obtain ⟨vids⟩ := result
    cases vids with
    | none => simp [videoUri]
    | some l =>
      cases l with
      | nil => simp [videoUri]
      | cons first rest =>
        cases first with
        | none => simp [videoUri]
        | some first =>
          obtain ⟨video⟩ := first
          cases video with
          | none => simp [videoUri]
          | some video =>
            obtain ⟨uri⟩ := video
            cases uri with
            | none => simp [videoUri]
            | some uri =>
              by_cases h : uri = ""
              · simp [videoUri, h]
              · simp [videoUri, h]

theorem orElse_some (m fallback : String) :
    orElse (some m) fallback = if m = "" then fallback else m := by
  by_cases h : m = "" <;> simp [orElse, h]

/-- A `POST /generate` that passes validation and whose prompt was built: the
handler is the upstream call followed by the success answer or the `catch`
block. -/
theorem generate_of_prompt (env : Env) (up : Upstream) (st : State)
    (body : List (String × Json)) (prompt : Json) (full : String)
    (hp : body.lookup "prompt" = some prompt) (ht : prompt.truthy = true)
    (hf : fullPrompt prompt ((body.lookup "style").getD (.str "cinematico"))
            ((body.lookup "aspectRatio").getD (.str "16:9")) = .ok full) :
    generate env up st body
      = catchError "Errore generazione video"
          (match callGenerateVideos env up st
              (generateParams full ((body.lookup "aspectRatio").getD (.str "16:9"))) with
           | (st1, trace, .error e) => ⟨st1, trace, .error e⟩
           | (st1, trace, .ok operation) =>
             ⟨st1, trace, .ok ⟨200, [("operationName", Value.ofOption operation.name),
                                      ("status", .str "processing")]⟩⟩) := by
  simp only [generate, generateTry, hp, ht, hf, Bool.not_true, Bool.false_eq_true, if_false]

/-- Each of the four preset keys resolves to its own hint. -/
theorem styleHint_of_mem (k h : String) (hm : (k, h) ∈ styleMap) :
    (styleHint k).toStr = h := by
  simp only [styleMap, List.mem_cons, Prod.mk.injEq, List.mem_singleton, List.not_mem_nil,
    or_false] at hm
  rcases hm with ⟨rfl, rfl⟩ | ⟨rfl, rfl⟩ | ⟨rfl, rfl⟩ | ⟨rfl, rfl⟩ <;> decide

/-- A `GET /status` with a truthy `op`: the handler is the upstream call
followed by `statusOf` or the `catch` block. -/
theorem status_of_op (env : Env) (up : Upstream) (st : State) (q : QueryValue)
    (hq : q.truthy = true) :
    status env up st (some q)
      = catchError "Errore verifica stato"
          (match callOperationsGet env up st q with
           | (st1, trace, .error e) => ⟨st1, trace, .error e⟩
           | (st1, trace, .ok operation) => ⟨st1, trace, statusOf q operation⟩) := by
  simp only [status, statusTry, hq, Bool.not_true, Bool.false_eq_true, if_false]

/-! ## The claims -/

/-- C1: a `POST /generate` whose body has no `prompt`, or the empty string as
`prompt`, is answered with HTTP 400 and an `error` member, whatever the other
members, the credential and the memoized client are; the handler builds no
client and calls no upstream operation, and leaves the module state as it
was. -/
theorem generate_without_prompt_is_400 (env : Env) (up : Upstream) (st : State)
    (body : List (String × Json))
    (h : body.lookup "prompt" = none ∨ body.lookup "prompt" = some (.str "")) :
    generate env up st body = ⟨st, [], ⟨400, [("error", .str "Prompt richiesto")]⟩⟩ := by
  rcases h with h | h <;> simp [generate, generateTry, h, Json.truthy, catchError]

theorem generate_without_prompt_is_400_witness :
    (([("prompt", Json.str ""), ("style", Json.str "noir")] : List (String × Json)).lookup "prompt"
        = some (.str "")) ∧
    generate envKey upOk ⟨none⟩ [("prompt", .str ""), ("style", .str "noir")]
      = ⟨⟨none⟩, [], ⟨400, [("error", .str "Prompt richiesto")]⟩⟩ :=
  ⟨rfl, generate_without_prompt_is_400 envKey upOk ⟨none⟩ _ (Or.inr rfl)⟩

/-- C9: a `GET /status` whose query has no `op`, or the empty string as `op`,
is answered with HTTP 400 and an `error` member, whatever the credential and
the memoized client are; the handler builds no client and calls no upstream
operation. -/
theorem status_without_op_is_400 (env : Env) (up : Upstream) (st : State)
    (op : Option QueryValue) (h : op = none ∨ op = some (.str "")) :
    status env up st op
      = ⟨st, [], ⟨400, [("error", .str "operationName richiesto (param: op)")]⟩⟩ := by
  rcases h with h | h <;> simp [status, statusTry, h, QueryValue.truthy, catchError]

theorem status_without_op_is_400_witness :
    ((some (QueryValue.str "") : Option QueryValue) = none ∨
      (some (QueryValue.str "") : Option QueryValue) = some (.str "")) ∧
    status envNone upOk ⟨none⟩ (some (.str ""))
      = ⟨⟨none⟩, [], ⟨400, [("error", .str "operationName richiesto (param: op)")]⟩⟩ :=
  ⟨Or.inr rfl, status_without_op_is_400 envNone upOk ⟨none⟩ _ (Or.inr rfl)⟩

/-- C8: when the polled operation is not complete (`done` missing or false), the
answer of `GET /status` is HTTP 200 with the body `{ status: "processing" }` and
nothing else, whatever `response`, `error` and the other members hold. -/
theorem status_not_done_is_processing (env : Env) (up : Upstream) (st : State) (q : QueryValue)
    (client : GoogleGenAI) (st1 : State) (built : List Event) (operation : Operation)
    (hq : q.truthy = true) (hai : getAI env st = .ok (client, st1, built))
    (hup : up.operationsGet client q = .ok operation)
    (hdone : operation.done = none ∨ operation.done = some false) :
    (status env up st (some q)).response = ⟨200, [("status", .str "processing")]⟩ := by
  rw [status_of_poll env up st q client st1 built operation hq hai hup]
  rcases hdone with h | h <;> simp [statusOf, h, catchError]

theorem status_not_done_is_processing_witness :
    (QueryValue.str "operations/1").truthy = true ∧
    getAI envKey ⟨none⟩ = .ok (⟨"k"⟩, ⟨some ⟨"k"⟩⟩, [.construct "k"]) ∧
    (upWith opRunning).operationsGet ⟨"k"⟩ (.str "operations/1") = .ok opRunning ∧
    opRunning.done = some false ∧
    (status envKey (upWith opRunning) ⟨none⟩ (some (.str "operations/1"))).response
      = ⟨200, [("status", .str "processing")]⟩ :=
  ⟨rfl, rfl, rfl, rfl,
    status_not_done_is_processing envKey (upWith opRunning) ⟨none⟩ (.str "operations/1")
      ⟨"k"⟩ ⟨some ⟨"k"⟩⟩ [.construct "k"] opRunning rfl rfl rfl (Or.inr rfl)⟩

/-- The path of a ready video, when `op` converts to a string (every string
does): a complete operation whose first generated video has a non-empty
`video.uri` is answered with HTTP 200 and `{ status: "done", videoUrl: uri }`
for that first URI, whatever entries follow it in the list and whatever `error`
holds. -/
theorem status_ready_video_of_convertible_op (env : Env) (up : Upstream) (st : State)
    (q : QueryValue) (text : String)
    (client : GoogleGenAI) (st1 : State) (built : List Event) (operation : Operation)
    (result : GenerateVideosResponse) (first : GeneratedVideo)
    (rest : List (Option GeneratedVideo)) (video : Video) (uri : String)
    (hq : q.truthy = true) (hconv : q.toStr = .ok text)
    (hai : getAI env st = .ok (client, st1, built))
    (hup : up.operationsGet client q = .ok operation)
    (hdone : operation.done = some true)
    (hres : operation.response = some result)
    (hvids : result.generatedVideos = some (some first :: rest))
    (hvideo : first.video = some video) (huri : video.uri = some uri) (hne : uri ≠ "") :
    (status env up st (some q)).response
      = ⟨200, [("status", .str "done"), ("videoUrl", .str uri)]⟩ := by
  rw [status_of_poll env up st q client st1 built operation hq hai hup]
  simp [statusOf, videoUri, hdone, hres, hvids, hvideo, huri, hne, hconv, catchError]

/-- The path of a ready video, when the conversion of `op` throws: the error is
caught and the answer is HTTP 500 with its message. -/
theorem status_ready_video_of_throwing_op (env : Env) (up : Upstream) (st : State)
    (q : QueryValue) (e : JSError)
    (client : GoogleGenAI) (st1 : State) (built : List Event) (operation : Operation)
    (uri : String)
    (hq : q.truthy = true) (hconv : q.toStr = .error e)
    (hai : getAI env st = .ok (client, st1, built))
    (hup : up.operationsGet client q = .ok operation)
    (hdone : operation.done = some true)
    (hvideo : videoUri operation = .ok (some uri)) :
    (status env up st (some q)).response
      = ⟨500, [("error", .str (if e.message = "" then "Errore verifica stato" else e.message))]⟩ := by
  rw [status_of_poll env up st q client st1 built operation hq hai hup]
  simp only [statusOf, hdone, hvideo, hconv, catchError, orElse_some, Option.getD_some,
    Bool.not_true, Bool.false_eq_true, if_false]

/-- C4, evaluated at the failing input.  The operation `opTwoVideos` is complete
and its first generated video has the URI `https://video/1`.  Polled with the
string `op=operations/1` it is answered `{ status: "done", videoUrl }`; polled
with `op[name]=operations/1&op[toString]=1`, an object with an own `toString`
member, the upstream is called and returns the same operation, but the log line
of line 91 throws while converting `op` and the answer is HTTP 500. -/
theorem status_ready_video_throws_on_object_op :
    opTwoVideos.done = some true ∧
    videoUri opTwoVideos = .ok (some "https://video/1") ∧
    (status envKey (upWith opTwoVideos) ⟨none⟩ (some (.str "operations/1"))).response
      = ⟨200, [("status", .str "done"), ("videoUrl", .str "https://video/1")]⟩ ∧
    (QueryValue.obj [("name", .str "operations/1"), ("toString", .str "1")]).truthy = true ∧
    (status envKey (upWith opTwoVideos) ⟨none⟩
        (some (.obj [("name", .str "operations/1"), ("toString", .str "1")]))).trace
      = [.construct "k",
         .operationsGet ⟨"k"⟩ (.obj [("name", .str "operations/1"), ("toString", .str "1")])] ∧
    (status envKey (upWith opTwoVideos) ⟨none⟩
        (some (.obj [("name", .str "operations/1"), ("toString", .str "1")]))).response
      = ⟨500, [("error", .str "Cannot convert object to primitive value")]⟩ :=
  ⟨rfl, rfl, rfl, rfl, rfl, rfl⟩

/-- C5: when the polled operation is complete, carries no `error`, and the
lookup of lines 88-94 finds no video URI, the answer of `GET /status` is
HTTP 200 with `status: "done"`, `videoUrl: null` and `raw` the first 300 UTF-16
code units of the JSON dump of the operation: a prefix of the dump of length at
most 300, and the whole dump when that has at most 300 code units. -/
theorem status_done_without_video (env : Env) (up : Upstream) (st : State) (q : QueryValue)
    (client : GoogleGenAI) (st1 : State) (built : List Event) (operation : Operation)
    (hq : q.truthy = true) (hai : getAI env st = .ok (client, st1, built))
    (hup : up.operationsGet client q = .ok operation)
    (hdone : operation.done = some true)
    (hvideo : videoUri operation = .ok none)
    (herror : operation.error = none) :
    ∃ raw : List Nat,
      (status env up st (some q)).response
        = ⟨200, [("status", .str "done"), ("videoUrl", .null), ("raw", .utf16 raw)]⟩ ∧
      raw = operation.json.take 300 ∧ raw <+: operation.json ∧ raw.length ≤ 300 ∧
      (operation.json.length ≤ 300 → raw = operation.json) := by
  refine ⟨operation.json.take 300, ?_, rfl, List.take_prefix _ _, ?_, ?_⟩
  · rw [status_of_poll env up st q client st1 built operation hq hai hup]
    simp [statusOf, hdone, hvideo, herror, catchError]
  · simp [List.length_take]
  · intro h
    exact List.take_of_length_le h

theorem status_done_without_video_witness :
    (QueryValue.str "operations/1").truthy = true ∧
    getAI envKey ⟨none⟩ = .ok (⟨"k"⟩, ⟨some ⟨"k"⟩⟩, [.construct "k"]) ∧
    (upWith opEmpty).operationsGet ⟨"k"⟩ (.str "operations/1") = .ok opEmpty ∧
    opEmpty.done = some true ∧ videoUri opEmpty = .ok none ∧ opEmpty.error = none ∧
    ∃ raw : List Nat,
      (status envKey (upWith opEmpty) ⟨none⟩ (some (.str "operations/1"))).response
        = ⟨200, [("status", .str "done"), ("videoUrl", .null), ("raw", .utf16 raw)]⟩ ∧
      raw = opEmpty.json.take 300 ∧ raw <+: opEmpty.json ∧ raw.length ≤ 300 ∧
      (opEmpty.json.length ≤ 300 → raw = opEmpty.json) :=
  ⟨rfl, rfl, rfl, rfl, rfl, rfl,
    status_done_without_video envKey (upWith opEmpty) ⟨none⟩ (.str "operations/1")
      ⟨"k"⟩ ⟨some ⟨"k"⟩⟩ [.construct "k"] opEmpty rfl rfl rfl rfl rfl rfl⟩

/-- C3, the claim fails as stated: a complete operation that reports an error
and also carries a generated video with a URI is answered with
`{ status: "done", videoUrl }`, not with `{ status: "error", error }`. -/
theorem status_error_with_video_is_done :
    opErrorAndVideo.done = some true ∧
    opErrorAndVideo.error = some ⟨some "quota exceeded"⟩ ∧
    (status envKey (upWith opErrorAndVideo) ⟨none⟩ (some (.str "operations/1"))).response
      = ⟨200, [("status", .str "done"), ("videoUrl", .str "https://video/1")]⟩ ∧
    (status envKey (upWith opErrorAndVideo) ⟨none⟩ (some (.str "operations/1"))).response
      ≠ ⟨200, [("status", .str "error"), ("error", .str "quota exceeded")]⟩ := by
  refine ⟨rfl, rfl, rfl, ?_⟩
  decide

/-- C3, amended: when the polled operation is complete, the lookup of lines
88-94 finds no video URI, and the operation reports an error, the answer of
`GET /status` is HTTP 200 with the body `{ status: "error", error: E }`, where
`E` is the error's `message` when that is a non-empty string and
`'Errore nella generazione'` when it is missing or empty. -/
theorem status_error_without_video (env : Env) (up : Upstream) (st : State) (q : QueryValue)
    (client : GoogleGenAI) (st1 : State) (built : List Event) (operation : Operation)
    (err : OperationError)
    (hq : q.truthy = true) (hai : getAI env st = .ok (client, st1, built))
    (hup : up.operationsGet client q = .ok operation)
    (hdone : operation.done = some true)
    (hvideo : videoUri operation = .ok none)
    (herror : operation.error = some err) :
    ∃ E : String,
      (status env up st (some q)).response
        = ⟨200, [("status", .str "error"), ("error", .str E)]⟩ ∧
      (∀ m, err.message = some m → m ≠ "" → E = m) ∧
      (err.message = none ∨ err.message = some "" → E = "Errore nella generazione") := by
  refine ⟨orElse err.message "Errore nella generazione", ?_, ?_, ?_⟩
  · rw [status_of_poll env up st q client st1 built operation hq hai hup]
    simp [statusOf, hdone, hvideo, herror, catchError]
  · intro m hm hne
    rw [hm, orElse_some_of_ne m _ hne]
  · rintro (h | h) <;> simp [h, orElse]

theorem status_error_without_video_witness :
    (QueryValue.str "operations/1").truthy = true ∧
    getAI envKey ⟨none⟩ = .ok (⟨"k"⟩, ⟨some ⟨"k"⟩⟩, [.construct "k"]) ∧
    (upWith opError).operationsGet ⟨"k"⟩ (.str "operations/1") = .ok opError ∧
    opError.done = some true ∧ videoUri opError = .ok none ∧
    opError.error = some ⟨some "quota exceeded"⟩ ∧
    ∃ E : String,
      (status envKey (upWith opError) ⟨none⟩ (some (.str "operations/1"))).response
        = ⟨200, [("status", .str "error"), ("error", .str E)]⟩ ∧
      (∀ m, (⟨some "quota exceeded"⟩ : OperationError).message = some m → m ≠ "" → E = m) ∧
      ((⟨some "quota exceeded"⟩ : OperationError).message = none ∨
        (⟨some "quota exceeded"⟩ : OperationError).message = some "" →
          E = "Errore nella generazione") :=
  ⟨rfl, rfl, rfl, rfl, rfl, rfl,
    status_error_without_video envKey (upWith opError) ⟨none⟩ (.str "operations/1")
      ⟨"k"⟩ ⟨some ⟨"k"⟩⟩ [.construct "k"] opError ⟨some "quota exceeded"⟩
      rfl rfl rfl rfl rfl rfl⟩

/-- C2, evaluated at the failing inputs.  The style `"constructor"` is no own
key of `styleMap`, yet the read `styleMap["constructor"]` finds the inherited
`Object.prototype.constructor`, which is truthy: the fallback is skipped and the
upstream receives the printed function instead of the default hint.  And a
style such as `{"toString": 1}` makes the conversion to a property key throw:
the request is answered with HTTP 500 although the upstream would have
accepted it. -/
theorem generate_unrecognized_style_misses_default :
    styleMap.lookup "constructor" = none ∧
    (generate envKey upOk ⟨none⟩
        [("prompt", .str "a cat surfing"), ("style", .str "constructor")]).trace
      = [.construct "k",
         .generateVideos ⟨"k"⟩
           { model := "veo-3.1-generate-preview",
             prompt := "a cat surfing. Style: function Object() \x7b [native code] \x7d",
             aspectRatio := .str "16:9", numberOfVideos := 1 }] ∧
    (styleHint "constructor").toStr ≠ (styleMapGet "cinematico").toStr ∧
    generate envKey upOk ⟨none⟩
        [("prompt", .str "a cat surfing"), ("style", .obj [("toString", .num "1")])]
      = ⟨⟨none⟩, [], ⟨500, [("error", .str "Cannot convert object to primitive value")]⟩⟩ := by
  refine ⟨rfl, rfl, ?_, rfl⟩
  decide

/-- The upstream request of `POST /generate`, when the handler reaches it: for
a `prompt` that is a non-empty string, a `style` and an `aspectRatio` that
convert to strings, and a client at hand, the handler issues exactly one
job-creation call and nothing but the client construction before it; that call
carries the model `veo-3.1-generate-preview`, the prompt
`<prompt>. Style: <hint>` with the hint `styleMap[style] || styleMap.cinematico`,
the body's `aspectRatio` or `"16:9"` when it has none, and `numberOfVideos` 1.
A body without `style` gets the `cinematico` hint, a preset key its own hint,
and a key that is neither an own property of `styleMap` nor a member of
`Object.prototype` the `cinematico` hint.  When the call succeeds the answer is
HTTP 200 with `{ operationName: operation.name, status: "processing" }`. -/
theorem generate_upstream_request (env : Env) (up : Upstream) (st : State)
    (body : List (String × Json)) (p key a : String) (client : GoogleGenAI) (st1 : State)
    (built : List Event)
    (hp : body.lookup "prompt" = some (.str p)) (hne : p ≠ "")
    (hs : ((body.lookup "style").getD (.str "cinematico")).toStr = .ok key)
    (ha : ((body.lookup "aspectRatio").getD (.str "16:9")).toStr = .ok a)
    (hai : getAI env st = .ok (client, st1, built)) :
    ∃ params : GenerateVideosParams,
      params = { model := "veo-3.1-generate-preview",
                 prompt := p ++ ". Style: " ++ (styleHint key).toStr,
                 aspectRatio := (body.lookup "aspectRatio").getD (.str "16:9"),
                 numberOfVideos := 1 } ∧
      (generate env up st body).trace = built ++ [.generateVideos client params] ∧
      (built = [] ∨ built = [.construct client.apiKey]) ∧
      (body.lookup "style" = none →
        params.prompt
          = p ++ ". Style: "
              ++ "cinematic look, shallow depth of field, film grain, anamorphic lens") ∧
      (∀ k h, (k, h) ∈ styleMap → body.lookup "style" = some (.str k) →
        params.prompt = p ++ ". Style: " ++ h) ∧
      (styleMap.lookup key = none → key ≠ "constructor" → key ≠ "__proto__" →
        objectPrototypeMethods.contains key = false →
        params.prompt
          = p ++ ". Style: "
              ++ "cinematic look, shallow depth of field, film grain, anamorphic lens") ∧
      (∀ operation, up.generateVideos client params = .ok operation →
        (generate env up st body).response
          = ⟨200, [("operationName", Value.ofOption operation.name),
                   ("status", .str "processing")]⟩) := by
  have ht : (Json.str p).truthy = true := by simp [Json.truthy, hne]
  have hf := fullPrompt_str p _ _ key a hs ha
  have hg := generate_of_prompt env up st body (.str p) _ hp ht hf
  refine ⟨_, rfl, ?_, (getAI_trace env st client st1 built hai).2, ?_, ?_, ?_, ?_⟩
  · rw [hg]
    simp only [callGenerateVideos, hai, generateParams]
    cases up.generateVideos client _ <;> rfl
  · intro hnone
    rw [hnone, Option.getD_none, toStr_str] at hs
    have hk : key = "cinematico" := by
      have := Except.ok.inj hs
      exact this.symm
    subst hk
    have hh : (styleHint "cinematico").toStr
        = "cinematic look, shallow depth of field, film grain, anamorphic lens" := by decide
    simp only [hh]
  · intro k h hm hstyle
    rw [hstyle, Option.getD_some, toStr_str] at hs
    have hk : key = k := (Except.ok.inj hs).symm
    subst hk
    simp only [styleHint_of_mem key h hm]
  · intro h1 h2 h3 h4
    simp only [styleHint_unknown key h1 h2 h3 h4, PropValue.toStr]
  · intro operation hop
    rw [hg]
    simp only [callGenerateVideos, hai, generateParams]
    rw [hop]
    rfl

theorem generate_upstream_request_witness :
    (([("prompt", Json.str "a cat surfing"), ("style", Json.str "documentary"),
        ("aspectRatio", Json.str "9:16")] : List (String × Json)).lookup "prompt"
      = some (.str "a cat surfing")) ∧
    getAI envKey ⟨none⟩ = .ok (⟨"k"⟩, ⟨some ⟨"k"⟩⟩, [.construct "k"]) ∧
    ∃ params : GenerateVideosParams,
      params = { model := "veo-3.1-generate-preview",
                 prompt := "a cat surfing" ++ ". Style: " ++ (styleHint "documentary").toStr,
                 aspectRatio := Json.str "9:16",
                 numberOfVideos := 1 } ∧
      (generate envKey upOk ⟨none⟩
          [("prompt", .str "a cat surfing"), ("style", .str "documentary"),
           ("aspectRatio", .str "9:16")]).trace
        = [.construct "k", .generateVideos ⟨"k"⟩ params] ∧
      (generate envKey upOk ⟨none⟩
          [("prompt", .str "a cat surfing"), ("style", .str "documentary"),
           ("aspectRatio", .str "9:16")]).response
        = ⟨200, [("operationName", .str "operations/1"), ("status", .str "processing")]⟩ := by
  obtain ⟨params, h1, h2, _, _, _, _, h5⟩ :=
    generate_upstream_request envKey upOk ⟨none⟩
      [("prompt", .str "a cat surfing"), ("style", .str "documentary"),
       ("aspectRatio", .str "9:16")]
      "a cat surfing" "documentary" "9:16" ⟨"k"⟩ ⟨some ⟨"k"⟩⟩ [.construct "k"]
      rfl (by decide) rfl rfl rfl
  exact ⟨rfl, rfl, params, h1, h2, h5 _ rfl⟩

/-- C7, evaluated at the failing inputs.  With the style `"toString"`, which is
no preset key, the one job-creation call carries a prompt whose hint is the
printed `Object.prototype.toString`, and that prompt is `<prompt>. Style: <hint>`
for none of the four preset hints.  With the aspect ratio `{"toString": 1}` and
a non-empty string prompt, the log line of line 49 throws while converting the
aspect ratio: no job-creation call is made and the answer is HTTP 500,
although a client is at hand and the upstream would have accepted the job. -/
theorem generate_request_carries_inherited_member :
    styleMap.lookup "toString" = none ∧
    (generate envKey upOk ⟨none⟩
        [("prompt", .str "a cat surfing"), ("style", .str "toString"),
         ("aspectRatio", .str "9:16")]).trace
      = [.construct "k",
         .generateVideos ⟨"k"⟩
           { model := "veo-3.1-generate-preview",
             prompt := "a cat surfing. Style: function toString() \x7b [native code] \x7d",
             aspectRatio := .str "9:16", numberOfVideos := 1 }] ∧
    (styleMap.all fun kh =>
        "a cat surfing. Style: function toString() \x7b [native code] \x7d"
          != "a cat surfing" ++ ". Style: " ++ kh.2) = true ∧
    generate envKey upOk ⟨none⟩
        [("prompt", .str "a cat surfing"), ("aspectRatio", .obj [("toString", .num "1")])]
      = ⟨⟨none⟩, [], ⟨500, [("error", .str "Cannot convert object to primitive value")]⟩⟩ := by
  refine ⟨rfl, rfl, ?_, rfl⟩
  decide

/-- C6: every exception raised while a handler invokes the upstream adapter is
caught and answered with HTTP 500 and a body `{ error }` whose value is the
string `err.message`, or the endpoint's fallback string when the message is
empty.  For `POST /generate` (a request that passed validation and whose prompt
was built) and for `GET /status` (a truthy `op`): a failing `getAI` (missing
credential), and a rejected upstream call; for `GET /status` also the
`TypeError` of a finished operation whose first generated video is `null`. -/
theorem adapter_exception_is_500 (env : Env) (up : Upstream) (st : State) :
    (∀ body prompt full e,
      body.lookup "prompt" = some prompt → prompt.truthy = true →
      fullPrompt prompt ((body.lookup "style").getD (.str "cinematico"))
        ((body.lookup "aspectRatio").getD (.str "16:9")) = .ok full →
      getAI env st = .error e →
      generate env up st body
        = ⟨st, [], ⟨500, [("error",
            .str (if e.message = "" then "Errore generazione video" else e.message))]⟩⟩) ∧
    (∀ body prompt full client st1 built e,
      body.lookup "prompt" = some prompt → prompt.truthy = true →
      fullPrompt prompt ((body.lookup "style").getD (.str "cinematico"))
        ((body.lookup "aspectRatio").getD (.str "16:9")) = .ok full →
      getAI env st = .ok (client, st1, built) →
      up.generateVideos client
        (generateParams full ((body.lookup "aspectRatio").getD (.str "16:9"))) = .error e →
      (generate env up st body).response
        = ⟨500, [("error",
            .str (if e.message = "" then "Errore generazione video" else e.message))]⟩) ∧
    (∀ q e, q.truthy = true → getAI env st = .error e →
      status env up st (some q)
        = ⟨st, [], ⟨500, [("error",
            .str (if e.message = "" then "Errore verifica stato" else e.message))]⟩⟩) ∧
    (∀ q client st1 built e, q.truthy = true → getAI env st = .ok (client, st1, built) →
      up.operationsGet client q = .error e →
      (status env up st (some q)).response
        = ⟨500, [("error",
            .str (if e.message = "" then "Errore verifica stato" else e.message))]⟩) ∧
    (∀ q client st1 built operation result rest, q.truthy = true →
      getAI env st = .ok (client, st1, built) →
      up.operationsGet client q = .ok operation →
      operation.done = some true → operation.response = some result →
      result.generatedVideos = some (none :: rest) →
      (status env up st (some q)).response
        = ⟨500, [("error", .str "Cannot read properties of null (reading 'video')")]⟩) := by
  refine ⟨?_, ?_, ?_, ?_, ?_⟩
  · intro body prompt full e hp ht hf hai
    rw [generate_of_prompt env up st body prompt full hp ht hf]
    simp only [callGenerateVideos, hai, catchError, orElse_some]
  · intro body prompt full client st1 built e hp ht hf hai hup
    rw [generate_of_prompt env up st body prompt full hp ht hf]
    simp only [callGenerateVideos, hai, hup, catchError, orElse_some]
  · intro q e hq hai
    rw [status_of_op env up st q hq]
    simp only [callOperationsGet, hai, catchError, orElse_some]
  · intro q client st1 built e hq hai hup
    rw [status_of_op env up st q hq]
    simp only [callOperationsGet, hai, hup, catchError, orElse_some]
  · intro q client st1 built operation result rest hq hai hup hdone hres hvids
    rw [status_of_poll env up st q client st1 built operation hq hai hup]
    simp [statusOf, videoUri, hdone, hres, hvids, catchError, cannotReadVideo, orElse]

theorem adapter_exception_is_500_witness :
    generate envNone upOk ⟨none⟩ [("prompt", .str "a cat surfing")]
      = ⟨⟨none⟩, [], ⟨500, [("error", .str "GEMINI_API_KEY non configurata")]⟩⟩ ∧
    (generate envKey (upFail ⟨""⟩) ⟨none⟩ [("prompt", .str "a cat surfing")]).response
      = ⟨500, [("error", .str "Errore generazione video")]⟩ ∧
    status envNone upOk ⟨none⟩ (some (.str "operations/1"))
      = ⟨⟨none⟩, [], ⟨500, [("error", .str "GEMINI_API_KEY non configurata")]⟩⟩ ∧
    (status envKey (upFail ⟨"503 Service Unavailable"⟩) ⟨none⟩
        (some (.str "operations/1"))).response
      = ⟨500, [("error", .str "503 Service Unavailable")]⟩ ∧
    (status envKey (upWith opNullVideo) ⟨none⟩ (some (.str "operations/1"))).response
      = ⟨500, [("error", .str "Cannot read properties of null (reading 'video')")]⟩ :=
  ⟨(adapter_exception_is_500 envNone upOk ⟨none⟩).1
      [("prompt", .str "a cat surfing")] (.str "a cat surfing") _
      ⟨"GEMINI_API_KEY non configurata"⟩ rfl rfl rfl rfl,
   (adapter_exception_is_500 envKey (upFail ⟨""⟩) ⟨none⟩).2.1
      [("prompt", .str "a cat surfing")] (.str "a cat surfing") _
      ⟨"k"⟩ ⟨some ⟨"k"⟩⟩ [.construct "k"] ⟨""⟩ rfl rfl rfl rfl rfl,
   (adapter_exception_is_500 envNone upOk ⟨none⟩).2.2.1
      (.str "operations/1") ⟨"GEMINI_API_KEY non configurata"⟩ rfl rfl,
   (adapter_exception_is_500 envKey (upFail ⟨"503 Service Unavailable"⟩) ⟨none⟩).2.2.2.1
      (.str "operations/1") ⟨"k"⟩ ⟨some ⟨"k"⟩⟩ [.construct "k"] ⟨"503 Service Unavailable"⟩
      rfl rfl rfl,
   (adapter_exception_is_500 envKey (upWith opNullVideo) ⟨none⟩).2.2.2.2
      (.str "operations/1") ⟨"k"⟩ ⟨some ⟨"k"⟩⟩ [.construct "k"] opNullVideo ⟨some [none]⟩ []
      rfl rfl rfl rfl rfl rfl⟩

/-- C10: the client is built lazily and memoized.  With no memoized handle and
the credential missing or empty, `getAI` throws the configuration error; every
`POST /generate` that passed validation and built its prompt, and every
`GET /status` with a truthy `op`, is then answered with HTTP 500 and that
error, calls nothing and leaves the handle unset, while `GET /health` answers
HTTP 200 with `status: "ok"`.  With no memoized handle and a non-empty
credential, `getAI` builds one handle and memoizes it; with a memoized handle,
`getAI` returns it under every environment, builds nothing and leaves the state
as it is. -/
theorem lazy_client (env : Env) (up : Upstream) (st : State) :
    (st.ai = none → (env.GEMINI_API_KEY = none ∨ env.GEMINI_API_KEY = some "") →
      getAI env st = .error ⟨"GEMINI_API_KEY non configurata"⟩ ∧
      (∀ body prompt full,
        body.lookup "prompt" = some prompt → prompt.truthy = true →
        fullPrompt prompt ((body.lookup "style").getD (.str "cinematico"))
          ((body.lookup "aspectRatio").getD (.str "16:9")) = .ok full →
        generate env up st body
          = ⟨st, [], ⟨500, [("error", .str "GEMINI_API_KEY non configurata")]⟩⟩) ∧
      (∀ q, q.truthy = true →
        status env up st (some q)
          = ⟨st, [], ⟨500, [("error", .str "GEMINI_API_KEY non configurata")]⟩⟩) ∧
      (∀ now, (health st now).response.status = 200 ∧
        (health st now).response.body.lookup "status" = some (.str "ok") ∧
        (health st now).state = st ∧ (health st now).trace = [])) ∧
    (st.ai = none → ∀ key, env.GEMINI_API_KEY = some key → key ≠ "" →
      getAI env st = .ok (⟨key⟩, ⟨some ⟨key⟩⟩, [.construct key]) ∧
      ∀ env2, getAI env2 ⟨some ⟨key⟩⟩ = .ok (⟨key⟩, ⟨some ⟨key⟩⟩, [])) ∧
    (∀ client, st.ai = some client → ∀ env2, getAI env2 st = .ok (client, st, [])) := by
  refine ⟨?_, ?_, ?_⟩
  · intro hst hkey
    have hai : getAI env st = .error ⟨"GEMINI_API_KEY non configurata"⟩ := by
      rcases hkey with h | h <;> simp [getAI, hst, h]
    refine ⟨hai, ?_, ?_, ?_⟩
    · intro body prompt full hp ht hf
      rw [generate_of_prompt env up st body prompt full hp ht hf]
      simp [callGenerateVideos, hai, catchError, orElse]
    · intro q hq
      rw [status_of_op env up st q hq]
      simp [callOperationsGet, hai, catchError, orElse]
    · intro now
      exact ⟨rfl, rfl, rfl, rfl⟩
  · intro hst key hkey hne
    refine ⟨?_, ?_⟩
    · simp [getAI, hst, hkey, hne]
    · intro env2
      rfl
  · intro client hst env2
    simp [getAI, hst]

theorem lazy_client_witness :
    (getAI envNone ⟨none⟩ = .error ⟨"GEMINI_API_KEY non configurata"⟩ ∧
      generate envNone upOk ⟨none⟩ [("prompt", .str "a cat surfing")]
        = ⟨⟨none⟩, [], ⟨500, [("error", .str "GEMINI_API_KEY non configurata")]⟩⟩ ∧
      status envNone upOk ⟨none⟩ (some (.str "operations/1"))
        = ⟨⟨none⟩, [], ⟨500, [("error", .str "GEMINI_API_KEY non configurata")]⟩⟩ ∧
      (health ⟨none⟩ "2026-01-01T00:00:00.000Z").response.status = 200) ∧
    (getAI envKey ⟨none⟩ = .ok (⟨"k"⟩, ⟨some ⟨"k"⟩⟩, [.construct "k"]) ∧
      getAI envNone ⟨some ⟨"k"⟩⟩ = .ok (⟨"k"⟩, ⟨some ⟨"k"⟩⟩, [])) :=
  have h1 := (lazy_client envNone upOk ⟨none⟩).1 rfl (Or.inl rfl)
  have h2 := (lazy_client envKey upOk ⟨none⟩).2.1 rfl "k" rfl (by decide)
  ⟨⟨h1.1, h1.2.1 [("prompt", .str "a cat surfing")] (.str "a cat surfing") _ rfl rfl rfl,
      h1.2.2.1 (.str "operations/1") rfl, (h1.2.2.2 "2026-01-01T00:00:00.000Z").1⟩,
    ⟨h2.1, h2.2 envNone⟩⟩

end VideoWorker
